import Mathlib

/-!
Verification of the sphere visualizer animator
(src/cross_asistent/static/js/sphere_visualizer.js).

The animator keeps module-level mutable state (raw TTS energy, smoothed
energy, a speech-active flag, an interval handle for the synthetic pulse
generator, and canvas dimensions) and exposes setter functions plus a
per-frame draw step.  We embed that state as an explicit record and each
operation as a pure state transformer.  Machine floats are modelled as
rationals; the wall-clock and random inputs of the pulse generator tick
are passed in as parameters.  The host timer table (setInterval and
clearInterval) is modelled by a list of active interval ids together
with a fresh-id counter, so that claims about "exactly one active timer"
are statable.
-/

/-- The mutable state of the visualizer module: raw and smoothed TTS
energy, the speech-active flag, the pulse-generator interval handle, the
set of currently active interval timers (host timer table), a fresh-id
counter for new timers, and the canvas buffer dimensions with the device
pixel ratio. -/
structure SphereState where
  time : ℚ
  ttsEnergy : ℚ
  ttsEnergySmooth : ℚ
  ttsActive : Bool
  ttsSimInterval : Option Nat
  activeIntervals : List Nat
  nextIntervalId : Nat
  canvasWidth : ℚ
  canvasHeight : ℚ
  dpr : ℚ
  deriving Repr, DecidableEq

/-- Initial module state: all energies zero, speech inactive, no
generator running, no timers active. -/
def initState : SphereState :=
  { time := 0, ttsEnergy := 0, ttsEnergySmooth := 0, ttsActive := false,
    ttsSimInterval := none, activeIntervals := [], nextIntervalId := 0,
    canvasWidth := 0, canvasHeight := 0, dpr := 1 }

/-- window.sphereSetTTSActive: sets ttsActive; when the argument is
false it also zeroes ttsEnergy. -/
def sphereSetTTSActive (active : Bool) (st : SphereState) : SphereState :=
  if active then { st with ttsActive := active }
  else { st with ttsActive := active, ttsEnergy := 0 }

/-- window.sphereSetTTSEnergy: stores Math.min(1, Math.max(0, energy))
as ttsEnergy. -/
def sphereSetTTSEnergy (energy : ℚ) (st : SphereState) : SphereState :=
  { st with ttsEnergy := min 1 (max 0 energy) }

/-- Host clearInterval: removes the given id from the table of active
interval timers. -/
def clearIntervalTimer (id : Nat) (st : SphereState) : SphereState :=
  { st with activeIntervals := st.activeIntervals.erase id }

/-- Host setInterval: registers a fresh interval timer and returns the
updated state together with the new handle. -/
def setIntervalTimer (st : SphereState) : SphereState × Nat :=
  ({ st with activeIntervals := st.nextIntervalId :: st.activeIntervals,
             nextIntervalId := st.nextIntervalId + 1 }, st.nextIntervalId)

/-- window.sphereStartTTSPulse: sets ttsActive to true, cancels the old
generator interval if one is recorded, then starts a new interval and
stores its handle. -/
def sphereStartTTSPulse (st : SphereState) : SphereState :=
  let st1 := { st with ttsActive := true }
  let st2 := match st1.ttsSimInterval with
    | some id => clearIntervalTimer id st1
    | none => st1
  let p := setIntervalTimer st2
  { p.1 with ttsSimInterval := some p.2 }

/-- window.sphereStopTTSPulse: sets ttsActive to false and ttsEnergy to
0; if a generator handle is recorded, cancels that interval and clears
the handle. -/
def sphereStopTTSPulse (st : SphereState) : SphereState :=
  let st1 := { st with ttsActive := false, ttsEnergy := 0 }
  match st1.ttsSimInterval with
  | some id => { clearIntervalTimer id st1 with ttsSimInterval := none }
  | none => st1

/-- One tick of the pulse-generator interval callback: writes
0.3 + r * 0.5 + s * 0.2 to ttsEnergy, where r is the value returned by
Math.random (uniform in [0,1)) and s the value of Math.sin at the
current wall clock divided by 200 (so s lies in [-1,1]). -/
def pulseTick (r s : ℚ) (st : SphereState) : SphereState :=
  { st with ttsEnergy := 3/10 + r * (1/2) + s * (1/5) }

/-- resize(): computes size = Math.min(containerWidth, containerHeight,
420) and sets the canvas buffer to size * dpr on each axis, recording
the device pixel ratio. -/
def resize (containerWidth containerHeight density : ℚ) (st : SphereState) : SphereState :=
  let size := min (min containerWidth containerHeight) 420
  { st with dpr := density, canvasWidth := size * density,
            canvasHeight := size * density }

/-- The state-mutating prefix of draw(): advances time by 0.006 and
applies one exponential smoothing step, with target equal to ttsEnergy
when ttsActive and 0 otherwise, at rate 0.12. -/
def drawStep (st : SphereState) : SphereState :=
  let st1 := { st with time := st.time + 6/1000 }
  let targetEnergy : ℚ := if st1.ttsActive then st1.ttsEnergy else 0
  { st1 with ttsEnergySmooth :=
      st1.ttsEnergySmooth + (targetEnergy - st1.ttsEnergySmooth) * (12/100) }

/-- The operations that can mutate the module state: the three public
setters, the stop function, a pulse-generator tick (with its random and
sine inputs), a draw frame, and a resize event. -/
inductive SphereOp where
  | setActive (active : Bool)
  | setEnergy (x : ℚ)
  | startPulse
  | stopPulse
  | tick (r s : ℚ)
  | draw
  | doResize (cw ch d : ℚ)

/-- Apply one operation to the state. -/
def applyOp : SphereOp → SphereState → SphereState
  | .setActive a, st => sphereSetTTSActive a st
  | .setEnergy x, st => sphereSetTTSEnergy x st
  | .startPulse, st => sphereStartTTSPulse st
  | .stopPulse, st => sphereStopTTSPulse st
  | .tick r s, st => pulseTick r s st
  | .draw, st => drawStep st
  | .doResize cw ch d, st => resize cw ch d st

/-- Environment constraints on an operation: a pulse tick receives a
Math.random value in [0,1) and a sine value in [-1,1]; every other
operation is unconstrained. -/
def opValid : SphereOp → Prop
  | .tick r s => 0 ≤ r ∧ r < 1 ∧ -1 ≤ s ∧ s ≤ 1
  | _ => True

/-- States reachable from the initial state by valid operations. -/
inductive Reachable : SphereState → Prop where
  | init : Reachable initState
  | step (op : SphereOp) (st : SphereState) :
      Reachable st → opValid op → Reachable (applyOp op st)

/-- The energy invariant: raw and smoothed energy lie in [0,1]. -/
def energyInv (st : SphereState) : Prop :=
  0 ≤ st.ttsEnergy ∧ st.ttsEnergy ≤ 1 ∧
  0 ≤ st.ttsEnergySmooth ∧ st.ttsEnergySmooth ≤ 1

/-- The timer invariant: the active-interval table holds exactly the
recorded generator handle (so at most one generator timer is active). -/
def timerInv (st : SphereState) : Prop :=
  match st.ttsSimInterval with
  | some id => st.activeIntervals = [id]
  | none => st.activeIntervals = []

/-! ### Basic frame lemmas about the operations -/

lemma drawStep_ttsActive (st : SphereState) : (drawStep st).ttsActive = st.ttsActive := rfl

lemma drawStep_ttsEnergy (st : SphereState) : (drawStep st).ttsEnergy = st.ttsEnergy := rfl

lemma drawStep_smooth (st : SphereState) :
    (drawStep st).ttsEnergySmooth =
      st.ttsEnergySmooth +
        ((if st.ttsActive then st.ttsEnergy else 0) - st.ttsEnergySmooth) * (12/100) := rfl

lemma startPulse_ttsEnergy (st : SphereState) :
    (sphereStartTTSPulse st).ttsEnergy = st.ttsEnergy := by
  cases h : st.ttsSimInterval <;>
    simp [sphereStartTTSPulse, clearIntervalTimer, setIntervalTimer, h]

lemma startPulse_smooth (st : SphereState) :
    (sphereStartTTSPulse st).ttsEnergySmooth = st.ttsEnergySmooth := by
  cases h : st.ttsSimInterval <;>
    simp [sphereStartTTSPulse, clearIntervalTimer, setIntervalTimer, h]

lemma stopPulse_ttsEnergy (st : SphereState) :
    (sphereStopTTSPulse st).ttsEnergy = 0 := by
  cases h : st.ttsSimInterval <;>
    simp [sphereStopTTSPulse, clearIntervalTimer, h]

lemma stopPulse_smooth (st : SphereState) :
    (sphereStopTTSPulse st).ttsEnergySmooth = st.ttsEnergySmooth := by
  cases h : st.ttsSimInterval <;>
    simp [sphereStopTTSPulse, clearIntervalTimer, h]

/-! ### C1, C3, C4, C10, C8 -/

/-- C1: on every frame the new smoothed energy equals
prev + (target - prev) * 0.12 with target = energyRaw when speechActive
else 0, and no other operation ever changes energySmoothed. -/
theorem C1_smoothing_update (st : SphereState) (a : Bool) (x r s cw ch d : ℚ) :
    (drawStep st).ttsEnergySmooth =
      st.ttsEnergySmooth +
        ((if st.ttsActive then st.ttsEnergy else 0) - st.ttsEnergySmooth) * (12/100) ∧
    (sphereSetTTSActive a st).ttsEnergySmooth = st.ttsEnergySmooth ∧
    (sphereSetTTSEnergy x st).ttsEnergySmooth = st.ttsEnergySmooth ∧
    (sphereStartTTSPulse st).ttsEnergySmooth = st.ttsEnergySmooth ∧
    (sphereStopTTSPulse st).ttsEnergySmooth = st.ttsEnergySmooth ∧
    (pulseTick r s st).ttsEnergySmooth = st.ttsEnergySmooth ∧
    (resize cw ch d st).ttsEnergySmooth = st.ttsEnergySmooth := by
  refine ⟨drawStep_smooth st, ?_, rfl, startPulse_smooth st, stopPulse_smooth st, rfl, rfl⟩
  cases a <;> simp [sphereSetTTSActive]

/-- C3: setEnergy stores clamp(x, 0, 1) as energyRaw; out-of-range
values are clamped and in-range values are stored unchanged. -/
theorem C3_setEnergy_clamps (x : ℚ) (st : SphereState) :
    (sphereSetTTSEnergy x st).ttsEnergy = min 1 (max 0 x) ∧
    (0 ≤ x → x ≤ 1 → (sphereSetTTSEnergy x st).ttsEnergy = x) ∧
    (x < 0 → (sphereSetTTSEnergy x st).ttsEnergy = 0) ∧
    (1 < x → (sphereSetTTSEnergy x st).ttsEnergy = 1) := by
  refine ⟨rfl, ?_, ?_, ?_⟩
  · intro h0 h1
    simp [sphereSetTTSEnergy, max_eq_right h0, min_eq_right h1]
  · intro hx
    show min 1 (max 0 x) = 0
    rw [max_eq_left hx.le]
    norm_num
  · intro hx
    show min 1 (max 0 x) = 1
    rw [max_eq_right (by linarith), min_eq_left hx.le]

/-- Witness for C3: setEnergy with the out-of-range input 3/2 stores 1. -/
theorem C3_setEnergy_clamps_witness :
    (sphereSetTTSEnergy (3/2) initState).ttsEnergy = 1 :=
  (C3_setEnergy_clamps (3/2) initState).2.2.2 (by norm_num)

/-- C4: setSpeechActive(false) zeroes the raw energy and clears the
flag, leaving every other field of the state unchanged. -/
theorem C4_setActive_false_zeroes (st : SphereState) :
    sphereSetTTSActive false st = { st with ttsActive := false, ttsEnergy := 0 } := by
  simp [sphereSetTTSActive]

/-- C10: setSpeechActive(true) changes only the speechActive flag; raw
energy, smoothed energy and the generator handle are untouched. -/
theorem C10_setActive_true_frame (st : SphereState) :
    sphereSetTTSActive true st = { st with ttsActive := true } := by
  simp [sphereSetTTSActive]

/-- C8: resize sets the buffer edge to min(containerWidth,
containerHeight, 420) times the pixel density; at 1000 by 1000 with
density 2 this is 840, not 2000. -/
theorem C8_resize_cap (cw ch d : ℚ) (st : SphereState) :
    (resize cw ch d st).canvasWidth = min (min cw ch) 420 * d ∧
    (resize cw ch d st).canvasHeight = min (min cw ch) 420 * d ∧
    (resize 1000 1000 2 st).canvasWidth = 840 ∧
    (resize 1000 1000 2 st).canvasHeight = 840 := by
  refine ⟨rfl, rfl, ?_, ?_⟩ <;> · show min (min 1000 1000) 420 * 2 = (840 : ℚ); norm_num

/-! ### Iterating the draw step -/

lemma iter_ttsActive (st : SphereState) (n : ℕ) :
    (drawStep^[n] st).ttsActive = st.ttsActive := by
  induction n with
  | zero => rfl
  | succ k ih => rw [Function.iterate_succ_apply', drawStep_ttsActive, ih]

lemma iter_ttsEnergy (st : SphereState) (n : ℕ) :
    (drawStep^[n] st).ttsEnergy = st.ttsEnergy := by
  induction n with
  | zero => rfl
  | succ k ih => rw [Function.iterate_succ_apply', drawStep_ttsEnergy, ih]

lemma iter_smooth_succ (st : SphereState) (n : ℕ) :
    (drawStep^[n+1] st).ttsEnergySmooth =
      (drawStep^[n] st).ttsEnergySmooth +
        ((if st.ttsActive then st.ttsEnergy else 0) -
          (drawStep^[n] st).ttsEnergySmooth) * (12/100) := by
  rw [Function.iterate_succ_apply', drawStep_smooth, iter_ttsActive, iter_ttsEnergy]

lemma iter_smooth_le_one (st : SphereState)
    (ht : (if st.ttsActive then st.ttsEnergy else 0) = 1)
    (h1 : st.ttsEnergySmooth ≤ 1) (n : ℕ) :
    (drawStep^[n] st).ttsEnergySmooth ≤ 1 := by
  induction n with
  | zero => simpa using h1
  | succ k ih => rw [iter_smooth_succ, ht]; linarith

lemma iter_smooth_nonneg (st : SphereState)
    (ht : (if st.ttsActive then st.ttsEnergy else 0) = 0)
    (h0 : 0 ≤ st.ttsEnergySmooth) (n : ℕ) :
    0 ≤ (drawStep^[n] st).ttsEnergySmooth := by
  induction n with
  | zero => simpa using h0
  | succ k ih => rw [iter_smooth_succ, ht]; linarith

/-! ### C2 -/

/-- C2: under a constant smoothing target, energySmoothed converges
monotonically without overshoot: from any start in [0,1], with target
held at 1 the per-frame sequence is non-decreasing and bounded by 1,
and with target held at 0 it is non-increasing and bounded below by
0. -/
theorem C2_smoothing_monotone (st : SphereState)
    (h0 : 0 ≤ st.ttsEnergySmooth) (h1 : st.ttsEnergySmooth ≤ 1) (n : ℕ) :
    ((if st.ttsActive then st.ttsEnergy else 0) = 1 →
      (drawStep^[n] st).ttsEnergySmooth ≤ (drawStep^[n+1] st).ttsEnergySmooth ∧
      (drawStep^[n] st).ttsEnergySmooth ≤ 1) ∧
    ((if st.ttsActive then st.ttsEnergy else 0) = 0 →
      (drawStep^[n+1] st).ttsEnergySmooth ≤ (drawStep^[n] st).ttsEnergySmooth ∧
      0 ≤ (drawStep^[n] st).ttsEnergySmooth) := by
  constructor
  · intro ht
    have hb := iter_smooth_le_one st ht h1 n
    refine ⟨?_, hb⟩
    rw [iter_smooth_succ, ht]
    linarith
  · intro ht
    have hb := iter_smooth_nonneg st ht h0 n
    refine ⟨?_, hb⟩
    rw [iter_smooth_succ, ht]
    linarith

/-- A concrete state with speech active, raw energy 1 and smoothed
energy 1/2, used to exercise the smoothing lemmas. -/
def fullTargetState : SphereState :=
  { initState with ttsActive := true, ttsEnergy := 1, ttsEnergySmooth := 1/2 }

/-- Witness for C2: from the state with speech active, raw energy 1 and
smoothed energy 1/2, frame 4 is at least frame 3 and frame 3 is at most
1. -/
theorem C2_smoothing_monotone_witness :
    (drawStep^[3] fullTargetState).ttsEnergySmooth ≤
      (drawStep^[4] fullTargetState).ttsEnergySmooth ∧
    (drawStep^[3] fullTargetState).ttsEnergySmooth ≤ 1 :=
  (C2_smoothing_monotone fullTargetState (by norm_num [fullTargetState, initState])
    (by norm_num [fullTargetState, initState]) 3).1 (by simp [fullTargetState])

/-! ### C5: the energy invariant -/

lemma energyInv_preserved (op : SphereOp) (st : SphereState)
    (hv : opValid op) (h : energyInv st) : energyInv (applyOp op st) := by
  obtain ⟨he0, he1, hm0, hm1⟩ := h
  cases op with
  | setActive a =>
    cases a
    · simp only [applyOp, sphereSetTTSActive, Bool.false_eq_true, if_false, energyInv]
      exact ⟨le_refl 0, by norm_num, hm0, hm1⟩
    · simp only [applyOp, sphereSetTTSActive, if_true, energyInv]
      exact ⟨he0, he1, hm0, hm1⟩
  | setEnergy x =>
    refine ⟨le_min (by norm_num) (le_max_left 0 x), min_le_left _ _, hm0, hm1⟩
  | startPulse =>
    unfold energyInv
    rw [applyOp, startPulse_ttsEnergy, startPulse_smooth]
    exact ⟨he0, he1, hm0, hm1⟩
  | stopPulse =>
    unfold energyInv
    rw [applyOp, stopPulse_ttsEnergy, stopPulse_smooth]
    exact ⟨le_refl 0, by norm_num, hm0, hm1⟩
  | tick r s =>
    obtain ⟨hr0, hr1, hsl, hsu⟩ := hv
    refine ⟨?_, ?_, hm0, hm1⟩
    · show (0:ℚ) ≤ 3/10 + r * (1/2) + s * (1/5)
      linarith
    · show 3/10 + r * (1/2) + s * (1/5) ≤ (1:ℚ)
      linarith
  | draw =>
    have ht0 : (0:ℚ) ≤ (if st.ttsActive then st.ttsEnergy else 0) := by
      split
      · exact he0
      · exact le_refl 0
    have ht1 : (if st.ttsActive then st.ttsEnergy else 0) ≤ (1:ℚ) := by
      split
      · exact he1
      · norm_num
    unfold energyInv
    rw [applyOp, drawStep_ttsEnergy, drawStep_smooth]
    refine ⟨he0, he1, by linarith, by linarith⟩
  | doResize cw ch d =>
    exact ⟨he0, he1, hm0, hm1⟩

/-- C5: from the initial state, every operation (the setters, stop, each
valid pulse-generator tick, each draw-frame smoothing step, and resize)
keeps raw and smoothed energy in [0,1]. -/
theorem C5_energy_invariant (st : SphereState) (h : Reachable st) : energyInv st := by
  induction h with
  | init =>
    exact ⟨le_refl 0, by norm_num [initState], le_refl 0, by norm_num [initState]⟩
  | step op st hr hv ih => exact energyInv_preserved op st hv ih

/-- Witness for C5: the state reached by one pulse tick with random
value 1/2 and sine value 1/2 satisfies the energy invariant. -/
theorem C5_energy_invariant_witness :
    energyInv (applyOp (SphereOp.tick (1/2) (1/2)) initState) :=
  C5_energy_invariant _
    (Reachable.step _ _ Reachable.init (by norm_num [opValid]))

/-! ### C6: at most one generator timer -/

lemma timerInv_preserved (op : SphereOp) (st : SphereState)
    (h : timerInv st) : timerInv (applyOp op st) := by
  unfold timerInv at h ⊢
  cases hi : st.ttsSimInterval with
  | none =>
    rw [hi] at h
    cases op with
    | setActive a => cases a <;> simp [applyOp, sphereSetTTSActive, hi, h]
    | setEnergy x => simp [applyOp, sphereSetTTSEnergy, hi, h]
    | startPulse =>
      simp [applyOp, sphereStartTTSPulse, setIntervalTimer, hi, h]
    | stopPulse => simp [applyOp, sphereStopTTSPulse, hi, h]
    | tick r s => simp [applyOp, pulseTick, hi, h]
    | draw => simp [applyOp, drawStep, hi, h]
    | doResize cw ch d => simp [applyOp, resize, hi, h]
  | some id =>
    rw [hi] at h
    cases op with
    | setActive a => cases a <;> simp [applyOp, sphereSetTTSActive, hi, h]
    | setEnergy x => simp [applyOp, sphereSetTTSEnergy, hi, h]
    | startPulse =>
      simp [applyOp, sphereStartTTSPulse, clearIntervalTimer, setIntervalTimer, hi, h]
    | stopPulse =>
      simp [applyOp, sphereStopTTSPulse, clearIntervalTimer, hi, h]
    | tick r s => simp [applyOp, pulseTick, hi, h]
    | draw => simp [applyOp, drawStep, hi, h]
    | doResize cw ch d => simp [applyOp, resize, hi, h]

lemma timerInv_reachable (st : SphereState) (h : Reachable st) : timerInv st := by
  induction h with
  | init => rfl
  | step op st hr hv ih => exact timerInv_preserved op st ih

/-- C6: in every reachable state at most one generator timer is active,
and calling startPulseGenerator cancels any old generator first and
leaves exactly one active generator timer, whose handle is recorded. -/
theorem C6_single_generator (st : SphereState) (h : Reachable st) :
    st.activeIntervals.length ≤ 1 ∧
    (sphereStartTTSPulse st).activeIntervals = [st.nextIntervalId] ∧
    (sphereStartTTSPulse st).ttsSimInterval = some st.nextIntervalId := by
  have hti := timerInv_reachable st h
  unfold timerInv at hti
  cases hi : st.ttsSimInterval with
  | none =>
    rw [hi] at hti
    refine ⟨by rw [hti]; norm_num, ?_, ?_⟩ <;>
      simp [sphereStartTTSPulse, setIntervalTimer, hi, hti]
  | some id =>
    rw [hi] at hti
    refine ⟨by rw [hti]; norm_num, ?_, ?_⟩ <;>
      simp [sphereStartTTSPulse, clearIntervalTimer, setIntervalTimer, hi, hti]

/-- Witness for C6: in the initial state no timer is active, and after
startPulseGenerator exactly timer 0 is active with its handle stored. -/
theorem C6_single_generator_witness :
    initState.activeIntervals.length ≤ 1 ∧
    (sphereStartTTSPulse initState).activeIntervals = [initState.nextIntervalId] ∧
    (sphereStartTTSPulse initState).ttsSimInterval = some initState.nextIntervalId :=
  C6_single_generator initState Reachable.init

/-! ### C7: stopPulseGenerator is idempotent -/

/-- C7: stopping the pulse generator twice yields the same state as
stopping it once; the resulting state has speechActive false, raw
energy 0 and no generator handle; and when no generator is running the
call changes nothing beyond resetting those two flags. -/
theorem C7_stop_idempotent (st : SphereState) :
    sphereStopTTSPulse (sphereStopTTSPulse st) = sphereStopTTSPulse st ∧
    (sphereStopTTSPulse st).ttsActive = false ∧
    (sphereStopTTSPulse st).ttsEnergy = 0 ∧
    (sphereStopTTSPulse st).ttsSimInterval = none ∧
    (st.ttsSimInterval = none →
      sphereStopTTSPulse st = { st with ttsActive := false, ttsEnergy := 0 }) := by
  cases h : st.ttsSimInterval with
  | none =>
    refine ⟨?_, ?_, ?_, ?_, fun _ => ?_⟩ <;>
      simp [sphereStopTTSPulse, clearIntervalTimer, h]
  | some id =>
    refine ⟨?_, ?_, ?_, ?_, fun hc => ?_⟩
    · simp [sphereStopTTSPulse, clearIntervalTimer, h]
    · simp [sphereStopTTSPulse, clearIntervalTimer, h]
    · simp [sphereStopTTSPulse, clearIntervalTimer, h]
    · simp [sphereStopTTSPulse, clearIntervalTimer, h]
    · exact absurd hc (by simp)

/-- Witness for C7: at the initial state, stopping twice equals
stopping once, and with no generator recorded the call only resets the
two flags. -/
theorem C7_stop_idempotent_witness :
    sphereStopTTSPulse (sphereStopTTSPulse initState) = sphereStopTTSPulse initState ∧
    sphereStopTTSPulse initState = { initState with ttsActive := false, ttsEnergy := 0 } :=
  ⟨(C7_stop_idempotent initState).1, (C7_stop_idempotent initState).2.2.2.2 rfl⟩

/-! ### C9: resize with a zero-sized container -/

/-- Counterexample for C9: with a 0 by 0 container at pixel density 2,
resize produces a buffer width of exactly 0, so the computed size is
not clamped to any minimum size greater than zero. -/
theorem C9_zero_container_counterexample :
    (resize 0 0 2 initState).canvasWidth = 0 ∧
    ¬ (0 < (resize 0 0 2 initState).canvasWidth) := by
  have h : (resize 0 0 2 initState).canvasWidth = 0 := by
    show min (min 0 0) 420 * 2 = (0:ℚ)
    norm_num
  exact ⟨h, by rw [h]; norm_num⟩

/-- C9 (amended): resize is total (no crash) and, for non-negative
container dimensions and pixel density, never produces a negative
dimension; a zero-sized container yields a dimension of exactly 0, with
no positive minimum applied. -/
theorem C9_resize_nonneg (cw ch d : ℚ) (st : SphereState)
    (hcw : 0 ≤ cw) (hch : 0 ≤ ch) (hd : 0 ≤ d) :
    0 ≤ (resize cw ch d st).canvasWidth ∧
    0 ≤ (resize cw ch d st).canvasHeight ∧
    (resize 0 0 d st).canvasWidth = 0 := by
  have hsize : (0:ℚ) ≤ min (min cw ch) 420 := le_min (le_min hcw hch) (by norm_num)
  refine ⟨mul_nonneg hsize hd, mul_nonneg hsize hd, ?_⟩
  show min (min 0 0) 420 * d = 0
  norm_num

/-- Witness for C9 (amended): at container 0 by 0 and density 2 the
buffer dimensions are non-negative and the width is exactly 0. -/
theorem C9_resize_nonneg_witness :
    0 ≤ (resize 0 0 2 initState).canvasWidth ∧
    0 ≤ (resize 0 0 2 initState).canvasHeight ∧
    (resize 0 0 2 initState).canvasWidth = 0 :=
  C9_resize_nonneg 0 0 2 initState (by norm_num) (by norm_num) (by norm_num)
